import Mathlib

/-!
# Verification of the ALT model-file codec (`alt/` Python package)

Shallow embedding of the binary codec implemented in `alt/base.py`, `alt/magic.py`,
`alt/general.py`, `alt/parameters.py`, `alt/tokenizer.py`, `alt/convert/spm.py`
and `examples/q8.py`.

Conventions of the embedding:
* A Python `bytes` value is a `List Nat`, each element a byte value `< 256`.
* Python `str` values are lists of Unicode code points (`List Nat`); `len(s)` is the
  list length (character count) and `s.encode("utf-8")` is `utf8Encode`.
* `struct.pack`/`struct.unpack` with formats `"i"`, `"q"`, `"?"`, `"f"` are modelled by
  `pack_i`/`pack_q`/`pack_bool`/`pack_f` and `unpack_i`/`unpack_q`/`unpack_bool`/`unpack_f`.
  Multi-byte integers are little-endian two's complement over `Nat`/`Int` arithmetic.
  `float32` fields are modelled by their 32-bit IEEE-754 bit patterns (a `Nat < 2^32`):
  `alt/parameters.py` and `alt/tokenizer.py` never compute with the float values, they
  only move the 4 packed bytes, so the bit pattern is a faithful representation.
* A file opened for reading is a `ByteSrc` (data plus cursor); `file.read(n)` is
  `srcRead`, which returns up to `n` bytes. A file opened for writing is the list of
  bytes written so far; `file.tell()` is its length.
* Python exceptions are the error side of `Except AltError`; distinct raise sites get
  distinct constructors (`struct.error`, `ValueError` at the marker/size/padding
  checks, `UnicodeDecodeError`, `AttributeError`).
-/

/-! ## Byte-level primitives (`struct.pack` / `struct.unpack`) -/

/-- Little-endian byte list (length `k`) of a natural number. -/
def leBytes : Nat → Nat → List Nat
  | 0, _ => []
  | k + 1, u => u % 256 :: leBytes k (u / 256)

/-- Value of a little-endian byte list. -/
def leVal (bs : List Nat) : Nat := bs.foldr (fun b acc => b + 256 * acc) 0

/-- `struct.pack("i", n)`: 4-byte little-endian two's-complement int32. -/
def pack_i (n : Int) : List Nat := leBytes 4 (n % (2 ^ 32)).toNat

/-- `struct.pack("q", n)`: 8-byte little-endian two's-complement int64. -/
def pack_q (n : Int) : List Nat := leBytes 8 (n % (2 ^ 64)).toNat

/-- `struct.pack("?", b)`: one byte, `\x01` for True, `\x00` for False. -/
def pack_bool (b : Bool) : List Nat := [if b then 1 else 0]

/-- `struct.pack("f", x)` where the float `x` is modelled by its IEEE-754 bit
pattern: the 4 little-endian bytes of the pattern. -/
def pack_f (bits : Nat) : List Nat := leBytes 4 (bits % (2 ^ 32))

/-- The attribute names `TokenType.get_type` in `alt/base.py` looks up on its own
class (one per return statement). -/
inductive TokenAttrName where
  | BYTE | CONTROL | UNKNOWN | UNUSED | BOS | EOS | PAD | NORMAL
  deriving DecidableEq, Repr

/-- Errors the codec can raise, one constructor per raise site. -/
inductive AltError where
  /-- `struct.error`: unpack buffer length does not match the format size. -/
  | structError : AltError
  /-- `ValueError` in `MagicReader.read_section_marker`: marker not registered. -/
  | unknownMarker : AltError
  /-- `ValueError` in a section's `read_model`: marker belongs to another section. -/
  | wrongSection : AltError
  /-- `ValueError` in a section's `read_model`: declared size mismatch. -/
  | sizeMismatch : AltError
  /-- `ValueError` in `MagicReader.read_alignment`: non-zero padding byte. -/
  | paddingCorrupt : AltError
  /-- `UnicodeDecodeError` from `bytes.decode("utf-8")`. -/
  | utf8Error : AltError
  /-- `AttributeError` from looking up a missing class attribute. -/
  | attributeError (name : TokenAttrName) : AltError
  deriving DecidableEq, Repr

/-- `struct.unpack("i", bs)`: requires exactly 4 bytes, signed little-endian. -/
def unpack_i (bs : List Nat) : Except AltError Int :=
  if bs.length = 4 then
    let u := leVal bs
    .ok (if u < 2 ^ 31 then (u : Int) else (u : Int) - 2 ^ 32)
  else .error .structError

/-- `struct.unpack("q", bs)`: requires exactly 8 bytes, signed little-endian. -/
def unpack_q (bs : List Nat) : Except AltError Int :=
  if bs.length = 8 then
    let u := leVal bs
    .ok (if u < 2 ^ 63 then (u : Int) else (u : Int) - 2 ^ 64)
  else .error .structError

/-- `struct.unpack("?", bs)`: requires exactly 1 byte; any non-zero byte is True. -/
def unpack_bool (bs : List Nat) : Except AltError Bool :=
  if bs.length = 1 then .ok (bs.headD 0 != 0) else .error .structError

/-- `struct.unpack("f", bs)`: requires exactly 4 bytes; the resulting float is
modelled by its 32-bit pattern. -/
def unpack_f (bs : List Nat) : Except AltError Nat :=
  if bs.length = 4 then .ok (leVal bs) else .error .structError

/-- `struct.unpack("4i", bs)`: requires exactly 16 bytes, four signed int32. -/
def unpack_4i (bs : List Nat) : Except AltError (Int × Int × Int × Int) :=
  if bs.length = 16 then
    let s32 := fun (u : Nat) => if u < 2 ^ 31 then (u : Int) else (u : Int) - 2 ^ 32
    .ok (s32 (leVal (bs.take 4)),
         s32 (leVal ((bs.drop 4).take 4)),
         s32 (leVal ((bs.drop 8).take 4)),
         s32 (leVal ((bs.drop 12).take 4)))
  else .error .structError

theorem leBytes_length (k u : Nat) : (leBytes k u).length = k := by
  induction k generalizing u with
  | zero => rfl
  | succ k ih => simp [leBytes, ih]

theorem leVal_leBytes (k u : Nat) : leVal (leBytes k u) = u % 256 ^ k := by
  induction k generalizing u with
  | zero => simp [leBytes, leVal, Nat.mod_one]
  | succ k ih =>
    have h256 : (256 : Nat) ^ (k + 1) = 256 * 256 ^ k := by ring
    simp only [leBytes, leVal, List.foldr_cons]
    have : leVal (leBytes k (u / 256)) = (u / 256) % 256 ^ k := ih (u / 256)
    simp only [leVal] at this
    rw [this, h256, Nat.mod_mul]

theorem pack_q_length (n : Int) : (pack_q n).length = 8 := leBytes_length 8 _

theorem pack_i_length (n : Int) : (pack_i n).length = 4 := leBytes_length 4 _

/-- `unpack_q` inverts `pack_q` on int64-representable values. -/
theorem unpack_q_pack_q (n : Int) (h1 : -(2 ^ 63) ≤ n) (h2 : n < 2 ^ 63) :
    unpack_q (pack_q n) = .ok n := by
  have hlen : (pack_q n).length = 8 := pack_q_length n
  have hmod : (0 : Int) ≤ n % (2 ^ 64) := Int.emod_nonneg n (by norm_num)
  have hlt : n % (2 ^ 64) < 2 ^ 64 := Int.emod_lt_of_pos n (by norm_num)
  have hval : leVal (pack_q n) = (n % (2 ^ 64)).toNat % 256 ^ 8 := leVal_leBytes 8 _
  have h256 : (256 : Nat) ^ 8 = 2 ^ 64 := by norm_num
  have htn : ((n % (2 ^ 64)).toNat : Int) = n % (2 ^ 64) := Int.toNat_of_nonneg hmod
  have hsmall : (n % (2 ^ 64)).toNat % 256 ^ 8 = (n % (2 ^ 64)).toNat := by
    apply Nat.mod_eq_of_lt
    rw [h256]
    omega
  have key : (if ((n % (2 ^ 64)).toNat : Nat) < 2 ^ 63 then ((n % (2 ^ 64)).toNat : Int)
      else ((n % (2 ^ 64)).toNat : Int) - 2 ^ 64) = n := by
    rcases le_or_lt 0 n with hpos | hneg
    · rw [if_pos (by omega)]
      omega
    · rw [if_neg (by omega)]
      omega
  rw [unpack_q, if_pos hlen]
  simp only [hval, hsmall, key]

/-- `unpack_i` inverts `pack_i` on int32-representable values. -/
theorem unpack_i_pack_i (n : Int) (h1 : -(2 ^ 31) ≤ n) (h2 : n < 2 ^ 31) :
    unpack_i (pack_i n) = .ok n := by
  have hlen : (pack_i n).length = 4 := pack_i_length n
  have hmod : (0 : Int) ≤ n % (2 ^ 32) := Int.emod_nonneg n (by norm_num)
  have hlt : n % (2 ^ 32) < 2 ^ 32 := Int.emod_lt_of_pos n (by norm_num)
  have hval : leVal (pack_i n) = (n % (2 ^ 32)).toNat % 256 ^ 4 := leVal_leBytes 4 _
  have h256 : (256 : Nat) ^ 4 = 2 ^ 32 := by norm_num
  have hsmall : (n % (2 ^ 32)).toNat % 256 ^ 4 = (n % (2 ^ 32)).toNat := by
    apply Nat.mod_eq_of_lt
    rw [h256]
    omega
  have key : (if ((n % (2 ^ 32)).toNat : Nat) < 2 ^ 31 then ((n % (2 ^ 32)).toNat : Int)
      else ((n % (2 ^ 32)).toNat : Int) - 2 ^ 32) = n := by
    rcases le_or_lt 0 n with hpos | hneg
    · rw [if_pos (by omega)]
      omega
    · rw [if_neg (by omega)]
      omega
  rw [unpack_i, if_pos hlen]
  simp only [hval, hsmall, key]

/-! ## Reader stream (`alt_file` opened for reading) -/

/-- A file opened for reading: contents plus the cursor (`file.tell()`). -/
structure ByteSrc where
  data : List Nat
  pos : Nat
  deriving DecidableEq, Repr

/-- `file.read(n)`: returns up to `n` bytes from the cursor and advances it by the
number of bytes actually returned. -/
def srcRead (s : ByteSrc) (n : Nat) : List Nat × ByteSrc :=
  let bs := (s.data.drop s.pos).take n
  (bs, ⟨s.data, s.pos + bs.length⟩)

theorem srcRead_append (pre mid suf : List Nat) (n : Nat) (hn : n = mid.length) :
    srcRead ⟨pre ++ (mid ++ suf), pre.length⟩ n =
      (mid, ⟨pre ++ (mid ++ suf), pre.length + mid.length⟩) := by
  subst hn
  simp [srcRead, List.drop_left, List.take_left]

/-! ## UTF-8 (`str.encode("utf-8")` / `bytes.decode("utf-8")`)

A Python `str` is modelled as its list of Unicode code points. -/

/-- UTF-8 encoding of one code point. -/
def utf8EncodeChar (c : Nat) : List Nat :=
  if c < 0x80 then [c]
  else if c < 0x800 then [0xC0 + c / 64, 0x80 + c % 64]
  else if c < 0x10000 then [0xE0 + c / 4096, 0x80 + c / 64 % 64, 0x80 + c % 64]
  else [0xF0 + c / 262144, 0x80 + c / 4096 % 64, 0x80 + c / 64 % 64, 0x80 + c % 64]

/-- `s.encode("utf-8")`. -/
def utf8Encode (s : List Nat) : List Nat := (s.map utf8EncodeChar).flatten

/-- Strict UTF-8 decoding, fuel-indexed (fuel bounds the number of decoded
characters; `utf8Decode` supplies the byte count, which always suffices).
Continuation-byte ranges follow the strict decoder: overlong encodings,
surrogates and code points above `0x10FFFF` are rejected. -/
def utf8DecodeAux : Nat → List Nat → Option (List Nat)
  | 0, [] => some []
  | 0, _ :: _ => none
  | _ + 1, [] => some []
  | fuel + 1, b :: rest =>
    if b < 0x80 then
      (utf8DecodeAux fuel rest).map (fun cs => b :: cs)
    else if b < 0xC2 then none
    else if b < 0xE0 then
      match rest with
      | b1 :: rest1 =>
        if 0x80 ≤ b1 ∧ b1 < 0xC0 then
          (utf8DecodeAux fuel rest1).map (fun cs => ((b - 0xC0) * 64 + (b1 - 0x80)) :: cs)
        else none
      | [] => none
    else if b < 0xF0 then
      match rest with
      | b1 :: b2 :: rest2 =>
        let lo1 := if b = 0xE0 then 0xA0 else 0x80
        let hi1 := if b = 0xED then 0xA0 else 0xC0
        if (lo1 ≤ b1 ∧ b1 < hi1) ∧ (0x80 ≤ b2 ∧ b2 < 0xC0) then
          (utf8DecodeAux fuel rest2).map
            (fun cs => ((b - 0xE0) * 4096 + (b1 - 0x80) * 64 + (b2 - 0x80)) :: cs)
        else none
      | _ => none
    else if b < 0xF5 then
      match rest with
      | b1 :: b2 :: b3 :: rest3 =>
        let lo1 := if b = 0xF0 then 0x90 else 0x80
        let hi1 := if b = 0xF4 then 0x90 else 0xC0
        if (lo1 ≤ b1 ∧ b1 < hi1) ∧ (0x80 ≤ b2 ∧ b2 < 0xC0) ∧ (0x80 ≤ b3 ∧ b3 < 0xC0) then
          (utf8DecodeAux fuel rest3).map
            (fun cs =>
              ((b - 0xF0) * 262144 + (b1 - 0x80) * 4096 + (b2 - 0x80) * 64 + (b3 - 0x80)) :: cs)
        else none
      | _ => none
    else none

/-- `bs.decode("utf-8")`: `some` code points, or `none` (a `UnicodeDecodeError`). -/
def utf8Decode (bs : List Nat) : Option (List Nat) := utf8DecodeAux bs.length bs

/-- ASCII strings encode to themselves. -/
theorem utf8Encode_ascii (s : List Nat) (h : ∀ c ∈ s, c < 0x80) : utf8Encode s = s := by
  induction s with
  | nil => rfl
  | cons c cs ih =>
    have hc : c < 0x80 := h c (List.mem_cons_self c cs)
    have hcs : ∀ x ∈ cs, x < 0x80 := fun x hx => h x (List.mem_cons_of_mem c hx)
    have h1 : utf8Encode (c :: cs) = utf8EncodeChar c ++ utf8Encode cs := by
      simp [utf8Encode]
    rw [h1, utf8EncodeChar, if_pos hc, ih hcs]
    rfl

/-- ASCII byte lists decode to themselves (with any sufficient fuel). -/
theorem utf8DecodeAux_ascii (fuel : Nat) (bs : List Nat) (hf : bs.length ≤ fuel)
    (h : ∀ b ∈ bs, b < 0x80) : utf8DecodeAux fuel bs = some bs := by
  induction fuel generalizing bs with
  | zero =>
    cases bs with
    | nil => rfl
    | cons b rest => simp at hf
  | succ fuel ih =>
    cases bs with
    | nil => rfl
    | cons b rest =>
      have hb : b < 0x80 := h b (List.mem_cons_self b rest)
      have hrest : ∀ x ∈ rest, x < 0x80 := fun x hx => h x (List.mem_cons_of_mem b hx)
      have hlen : rest.length ≤ fuel := by simpa using hf
      simp only [utf8DecodeAux, if_pos hb, ih rest hlen hrest]
      rfl

/-- ASCII byte lists decode to themselves. -/
theorem utf8Decode_ascii (bs : List Nat) (h : ∀ b ∈ bs, b < 0x80) :
    utf8Decode bs = some bs :=
  utf8DecodeAux_ascii bs.length bs le_rfl h

/-! ## Magic constants (`alt/base.py`, `MagicType`) -/

namespace MagicType

def ALT : Int := 0x616C7400
def GENERAL : Int := 0xCAFEBABE
def PARAMETERS : Int := 0xDEADBEEF
def TOKENIZER : Int := 0xBADDCAFE
def TENSORS : Int := 0xFACEFEED
def END : Int := 0x0FFFFFFF
def ALIGNMENT : Nat := 32
def VERSION : Int := 2

/-- `MagicType.is_valid`: membership in the registered marker set. -/
def is_valid (marker : Int) : Bool :=
  marker == ALT || marker == END || marker == GENERAL ||
  marker == PARAMETERS || marker == TENSORS || marker == TOKENIZER

def is_alt (marker : Int) : Bool := marker == ALT

def is_general (marker : Int) : Bool := marker == GENERAL

def is_parameters (marker : Int) : Bool := marker == PARAMETERS

def is_tokenizer (marker : Int) : Bool := marker == TOKENIZER

def is_end (marker : Int) : Bool := marker == END

end MagicType

/-! ## Alignment and section framing (`BaseMagic`, `MagicWriter`, `MagicReader`) -/

/-- `BaseMagic.calculate_padding`: padding needed to align `position` to 32 bytes. -/
def calculate_padding (position : Nat) : Nat :=
  (MagicType.ALIGNMENT - position % MagicType.ALIGNMENT) % MagicType.ALIGNMENT

/-- `MagicWriter.write_alignment`: append the zero padding (writer position is the
number of bytes written so far). -/
def write_alignment (w : List Nat) : List Nat :=
  let padding_needed := calculate_padding w.length
  if padding_needed > 0 then w ++ List.replicate padding_needed 0 else w

/-- `MagicWriter.write_section_marker`: 8-byte marker then 8-byte size. -/
def write_section_marker (w : List Nat) (marker size : Int) : List Nat :=
  w ++ pack_q marker ++ pack_q size

/-- `MagicReader.read_alignment`: skip the padding, failing on non-zero bytes. -/
def read_alignment (s : ByteSrc) : Except AltError ByteSrc :=
  let padding_needed := calculate_padding s.pos
  if padding_needed > 0 then
    let r := srcRead s padding_needed
    if r.1 = List.replicate padding_needed 0 then .ok r.2 else .error .paddingCorrupt
  else .ok s

/-- `MagicReader.read_section_marker`: read and validate the marker, read the size. -/
def read_section_marker (s : ByteSrc) : Except AltError ((Int × Int) × ByteSrc) :=
  let rm := srcRead s 8
  match unpack_q rm.1 with
  | .error e => .error e
  | .ok marker =>
    if !MagicType.is_valid marker then .error .unknownMarker
    else
      let rs := srcRead rm.2 8
      match unpack_q rs.1 with
      | .error e => .error e
      | .ok size => .ok ((marker, size), rs.2)

/-! ## Shared field readers -/

/-- The recurring two-line pattern
`length = struct.unpack("i", f.read(4))[0]; value = f.read(length).decode("utf-8")`.
A negative length (which would make the buffered `read` raise) does not occur in any
input considered below; `Int.toNat` clamps it to 0. -/
def readPrefixedStr (s : ByteSrc) : Except AltError (List Nat × ByteSrc) :=
  let rl := srcRead s 4
  match unpack_i rl.1 with
  | .error e => .error e
  | .ok length =>
    let rv := srcRead rl.2 length.toNat
    match utf8Decode rv.1 with
    | some cps => .ok (cps, rv.2)
    | none => .error .utf8Error

/-- `struct.unpack("i", f.read(4))[0]`. -/
def readInt32 (s : ByteSrc) : Except AltError (Int × ByteSrc) :=
  let r := srcRead s 4
  match unpack_i r.1 with
  | .error e => .error e
  | .ok v => .ok (v, r.2)

/-- `struct.unpack("f", f.read(4))[0]` (float modelled by its bit pattern). -/
def readFloat32 (s : ByteSrc) : Except AltError (Nat × ByteSrc) :=
  let r := srcRead s 4
  match unpack_f r.1 with
  | .error e => .error e
  | .ok v => .ok (v, r.2)

/-! ## General section (`alt/general.py`, `GeneralModel`)

The in-memory state after `__init__`: seven strings pulled from the model info,
each `*_len` attribute being `len(string)` — the character count. -/

structure GeneralState where
  model_type : List Nat
  base_model : List Nat
  author : List Nat
  created_at : List Nat
  last_modified : List Nat
  license : List Nat
  uuid : List Nat
  deriving DecidableEq, Repr

/-- `GeneralModel.calculate_size`: 4-byte prefix plus `len(field)` (character
count, as stored in the `*_len` attributes) for each of the seven fields. -/
def generalCalculateSize (g : GeneralState) : Nat :=
  (4 + g.author.length) + (4 + g.base_model.length) + (4 + g.model_type.length) +
    (4 + g.created_at.length) + (4 + g.last_modified.length) + (4 + g.license.length) +
    (4 + g.uuid.length)

/-- The body bytes `GeneralModel.write_model` emits after the header: for each field
in write order, `struct.pack("i", length)` (the character count) followed by
`value.encode("utf-8")` (the UTF-8 bytes). -/
def generalWriteBody (g : GeneralState) : List Nat :=
  (pack_i g.model_type.length ++ utf8Encode g.model_type) ++
  (pack_i g.base_model.length ++ utf8Encode g.base_model) ++
  (pack_i g.author.length ++ utf8Encode g.author) ++
  (pack_i g.created_at.length ++ utf8Encode g.created_at) ++
  (pack_i g.last_modified.length ++ utf8Encode g.last_modified) ++
  (pack_i g.license.length ++ utf8Encode g.license) ++
  (pack_i g.uuid.length ++ utf8Encode g.uuid)

/-- `GeneralModel.write_model`: section marker + size, the seven fields, padding. -/
def generalWriteModel (g : GeneralState) (w : List Nat) : List Nat :=
  write_alignment
    (write_section_marker w MagicType.GENERAL (generalCalculateSize g) ++ generalWriteBody g)

/-- The field loop of `GeneralModel.read_model` (`n` fields). -/
def generalReadFields : Nat → ByteSrc → Except AltError (List (List Nat) × ByteSrc)
  | 0, s => .ok ([], s)
  | n + 1, s =>
    match readPrefixedStr s with
    | .error e => .error e
    | .ok (v, s1) =>
      match generalReadFields n s1 with
      | .error e => .error e
      | .ok (vs, s2) => .ok (v :: vs, s2)

/-- `GeneralModel.read_model`: marker via `read_section_marker`, `is_general` check,
declared size compared against the instance's own `calculate_size()`, the seven
string fields, then `read_alignment`. Returns the decoded fields in field order. -/
def generalReadModel (g : GeneralState) (s : ByteSrc) :
    Except AltError (List (List Nat) × ByteSrc) :=
  match read_section_marker s with
  | .error e => .error e
  | .ok ((marker, size), s1) =>
    if !MagicType.is_general marker then .error .wrongSection
    else if size ≠ (generalCalculateSize g : Int) then .error .sizeMismatch
    else
      match generalReadFields 7 s1 with
      | .error e => .error e
      | .ok (vs, s2) =>
        match read_alignment s2 with
        | .error e => .error e
        | .ok s3 => .ok (vs, s3)

/-! ## Parameters section (`alt/parameters.py`, `ParametersModel`) -/

/-- The instance attributes `ParametersModel.__init__` sets (the `head_size`
attribute is set to `hidden_size // num_attention_heads` from the configuration;
it is kept as a field here so that files with an inconsistent stored value can be
expressed — the codec below never recomputes it). Floats are bit patterns. -/
structure ParamsState where
  hidden_act : List Nat
  tie_word_embeddings : Bool
  hidden_size : Int
  intermediate_size : Int
  max_position_embeddings : Int
  num_attention_heads : Int
  num_hidden_layers : Int
  num_key_value_heads : Int
  sliding_window : Int
  head_size : Int
  rms_norm_eps : Nat
  rope_theta : Nat
  initializer_range : Nat
  deriving DecidableEq, Repr

/-- `ParametersModel.calculate_size`: string prefix + `len(hidden_act)` (character
count), 1 bool byte, 7 int32, 3 float32 and the derived int32. -/
def paramsCalculateSize (p : ParamsState) : Nat :=
  (4 + p.hidden_act.length) + 1 + 4 * 7 + 4 * 3 + 4

/-- `ParametersModel.write_model`: header, then the `fields` list in order —
`(len, hidden_act)`, the bool (1 byte via `struct.pack("?")`), eight int32 (the
derived `head_size` last), three float32 — then the padding. -/
def paramsWriteModel (p : ParamsState) (w : List Nat) : List Nat :=
  write_alignment
    (write_section_marker w MagicType.PARAMETERS (paramsCalculateSize p) ++
      (pack_i p.hidden_act.length ++ utf8Encode p.hidden_act) ++
      pack_bool p.tie_word_embeddings ++
      pack_i p.hidden_size ++ pack_i p.intermediate_size ++
      pack_i p.max_position_embeddings ++ pack_i p.num_attention_heads ++
      pack_i p.num_hidden_layers ++ pack_i p.num_key_value_heads ++
      pack_i p.sliding_window ++ pack_i p.head_size ++
      pack_f p.rms_norm_eps ++ pack_f p.rope_theta ++ pack_f p.initializer_range)

/-- The record `ParametersModel.read_model` would return. -/
structure ParamsMeta where
  hidden_act : List Nat
  tie_word_embeddings : Bool
  hidden_size : Int
  intermediate_size : Int
  max_position_embeddings : Int
  num_attention_heads : Int
  num_hidden_layers : Int
  num_key_value_heads : Int
  sliding_window : Int
  head_size : Int
  rms_norm_eps : Nat
  rope_theta : Nat
  initializer_range : Nat
  deriving DecidableEq, Repr

/-- The tail of the `ParametersModel.read_model` field loop after the bool field:
eight int32 (`head_size` read back verbatim, no recomputation), three float32,
then `read_alignment`. -/
def paramsReadAfterBool (hidden_act : List Nat) (tie : Bool) (s : ByteSrc) :
    Except AltError (ParamsMeta × ByteSrc) :=
  match readInt32 s with
          | .error e => .error e
          | .ok (hidden_size, s3) =>
            match readInt32 s3 with
            | .error e => .error e
            | .ok (intermediate_size, s4) =>
              match readInt32 s4 with
              | .error e => .error e
              | .ok (max_position_embeddings, s5) =>
                match readInt32 s5 with
                | .error e => .error e
                | .ok (num_attention_heads, s6) =>
                  match readInt32 s6 with
                  | .error e => .error e
                  | .ok (num_hidden_layers, s7) =>
                    match readInt32 s7 with
                    | .error e => .error e
                    | .ok (num_key_value_heads, s8) =>
                      match readInt32 s8 with
                      | .error e => .error e
                      | .ok (sliding_window, s9) =>
                        match readInt32 s9 with
                        | .error e => .error e
                        | .ok (head_size, s10) =>
                          match readFloat32 s10 with
                          | .error e => .error e
                          | .ok (rms_norm_eps, s11) =>
                            match readFloat32 s11 with
                            | .error e => .error e
                            | .ok (rope_theta, s12) =>
                              match readFloat32 s12 with
                              | .error e => .error e
                              | .ok (initializer_range, s13) =>
                                match read_alignment s13 with
                                | .error e => .error e
                                | .ok s14 =>
                                  .ok (⟨hidden_act, tie, hidden_size,
                                        intermediate_size, max_position_embeddings,
                                        num_attention_heads, num_hidden_layers,
                                        num_key_value_heads, sliding_window, head_size,
                                        rms_norm_eps, rope_theta, initializer_range⟩, s14)

/-- The `ParametersModel.read_model` field loop from the bool field on: the bool is
read via `struct.unpack("?", self.alt_file.read(4))` — a **4-byte** read against a
1-byte format, exactly as in the source. -/
def paramsReadFromBool (hidden_act : List Nat) (s2 : ByteSrc) :
    Except AltError (ParamsMeta × ByteSrc) :=
  let rb := srcRead s2 4
  match unpack_bool rb.1 with
  | .error e => .error e
  | .ok tie => paramsReadAfterBool hidden_act tie rb.2

/-- `ParametersModel.read_model`: marker and size checks, then the field loop in
declared order — the one string (`readPrefixedStr`), then the remaining fields
(`paramsReadFromBool`). -/
def paramsReadModel (p : ParamsState) (s : ByteSrc) :
    Except AltError (ParamsMeta × ByteSrc) :=
  match read_section_marker s with
  | .error e => .error e
  | .ok ((marker, size), s1) =>
    if !MagicType.is_parameters marker then .error .wrongSection
    else if size ≠ (paramsCalculateSize p : Int) then .error .sizeMismatch
    else
      match readPrefixedStr s1 with
      | .error e => .error e
      | .ok (hidden_act, s2) => paramsReadFromBool hidden_act s2

/-! ## Token classification (`alt/convert/spm.py` and `alt/base.py`)

The `SentencePieceProcessor` is an external collaborator; for one token it supplies
the four flags queried by the classifiers. Token strings are code-point lists; the
three literals matched are spelled out as their code points. -/

/-- The processor's per-token flags (`is_byte(i)`, `is_control(i)`, `is_unknown(i)`,
`is_unused(i)`). -/
structure SpmTokenFlags where
  is_byte : Bool
  is_control : Bool
  is_unknown : Bool
  is_unused : Bool
  deriving DecidableEq, Repr

/-- The token text `"<s>"`. -/
def strBOS : List Nat := [60, 115, 62]

/-- The token text `"</s>"`. -/
def strEOS : List Nat := [60, 47, 115, 62]

/-- The token text `"<pad>"`. -/
def strPAD : List Nat := [60, 112, 97, 100, 62]

namespace SpmTokenType

/-! The class constants of `TokenType` in `alt/convert/spm.py`. -/

def NORMAL : Int := 0
def BYTE : Int := 1
def CONTROL : Int := 2
def UNKNOWN : Int := 3
def UNUSED : Int := 4
def BOS : Int := 5
def EOS : Int := 6
def PAD : Int := 7

end SpmTokenType

/-- `TokenType.get_token_type` in `alt/convert/spm.py`. -/
def spmGetTokenType (p : SpmTokenFlags) (token : List Nat) : Int :=
  if p.is_byte then SpmTokenType.BYTE
  else if p.is_control then SpmTokenType.CONTROL
  else if p.is_unknown then SpmTokenType.UNKNOWN
  else if p.is_unused then SpmTokenType.UNUSED
  else if token = strBOS then SpmTokenType.BOS
  else if token = strEOS then SpmTokenType.EOS
  else if token = strPAD then SpmTokenType.PAD
  else SpmTokenType.NORMAL

/-- The class attribute table of `TokenType` in `alt/base.py`: the class body
defines only `__init__` and `get_type`; none of the constant names the method
returns is defined, so every lookup yields `none`. -/
def baseTokenTypeClassAttr : TokenAttrName → Option Int := fun _ => none

/-- Python attribute lookup `TokenType.<name>` on the `alt/base.py` class:
`AttributeError` when the class table has no entry. -/
def baseTokenTypeGetAttr (a : TokenAttrName) : Except AltError Int :=
  match baseTokenTypeClassAttr a with
  | some v => .ok v
  | none => .error (.attributeError a)

/-- `TokenType.get_type` in `alt/base.py`: same precedence chain as the `spm.py`
classifier, but every return statement evaluates a class attribute. -/
def baseGetType (p : SpmTokenFlags) (token : List Nat) : Except AltError Int :=
  if p.is_byte then baseTokenTypeGetAttr .BYTE
  else if p.is_control then baseTokenTypeGetAttr .CONTROL
  else if p.is_unknown then baseTokenTypeGetAttr .UNKNOWN
  else if p.is_unused then baseTokenTypeGetAttr .UNUSED
  else if token = strBOS then baseTokenTypeGetAttr .BOS
  else if token = strEOS then baseTokenTypeGetAttr .EOS
  else if token = strPAD then baseTokenTypeGetAttr .PAD
  else baseTokenTypeGetAttr .NORMAL

/-! ## Tokenizer section (`alt/tokenizer.py`, `TokenizerModel`) -/

/-- One vocabulary entry as the processor reports it: `id_to_piece(i)`,
`get_score(i)` (float bits) and the four classification flags. -/
structure TokEntry where
  piece : List Nat
  score : Nat
  flags : SpmTokenFlags
  deriving DecidableEq, Repr

/-- `TokenizerModel` instance state: the vocabulary (order = token id) and the
special ids reported by the processor (`vocab_size` is `vocab.length`). -/
structure TokState where
  vocab : List TokEntry
  bos_id : Int
  eos_id : Int
  pad_id : Int
  unk_id : Int
  deriving DecidableEq, Repr

/-- `TokenizerModel.calculate_size`: five int32, then per token the 4-byte length
prefix, `len(token.encode("utf-8"))` bytes (byte count here, unlike General),
4 score bytes and 4 type bytes. -/
def tokCalculateSize (t : TokState) : Nat :=
  4 * 5 + t.vocab.foldr (fun e acc => (4 + (utf8Encode e.piece).length + 4 + 4) + acc) 0

/-- The per-token loop of `TokenizerModel.write_model`: each iteration computes
`token_bytes`, `token_score` and then `token_type = self.token_type.get_type(...)`
(the `alt/base.py` classifier) before writing the four fields. -/
def tokWriteTokens : List TokEntry → List Nat → Except AltError (List Nat)
  | [], w => .ok w
  | e :: rest, w =>
    let token_bytes := utf8Encode e.piece
    match baseGetType e.flags e.piece with
    | .error err => .error err
    | .ok token_type =>
      tokWriteTokens rest
        (w ++ pack_i token_bytes.length ++ token_bytes ++ pack_f e.score ++
          pack_i token_type)

/-- `TokenizerModel.write_model`: header, the five metadata int32, the token loop,
then the padding. -/
def tokWriteModel (t : TokState) (w : List Nat) : Except AltError (List Nat) :=
  let w1 := write_section_marker w MagicType.TOKENIZER (tokCalculateSize t)
  let w2 := w1 ++ pack_i t.vocab.length ++ pack_i t.bos_id ++ pack_i t.eos_id ++
    pack_i t.pad_id ++ pack_i t.unk_id
  match tokWriteTokens t.vocab w2 with
  | .error e => .error e
  | .ok w3 => .ok (write_alignment w3)

/-- One decoded vocabulary record of `TokenizerModel.read_model`. -/
structure TokInfo where
  len : Int
  token : List Nat
  score : Nat
  type : Int
  deriving DecidableEq, Repr

/-- The record `TokenizerModel.read_model` returns. -/
structure TokMeta where
  vocab_size : Int
  bos_id : Int
  eos_id : Int
  pad_id : Int
  unk_id : Int
  vocab : List TokInfo
  deriving DecidableEq, Repr

/-- The token loop of `TokenizerModel.read_model` (`range(vocab_size)`; a negative
`vocab_size`, like Python's empty `range`, iterates zero times via `Int.toNat`). -/
def tokReadLoop : Nat → ByteSrc → Except AltError (List TokInfo × ByteSrc)
  | 0, s => .ok ([], s)
  | n + 1, s =>
    let rl := srcRead s 4
    match unpack_i rl.1 with
    | .error e => .error e
    | .ok token_len =>
      let rt := srcRead rl.2 token_len.toNat
      match utf8Decode rt.1 with
      | none => .error .utf8Error
      | some token =>
        match readFloat32 rt.2 with
        | .error e => .error e
        | .ok (token_score, s3) =>
          match readInt32 s3 with
          | .error e => .error e
          | .ok (token_type, s4) =>
            match tokReadLoop n s4 with
            | .error e => .error e
            | .ok (rest, s5) => .ok (⟨token_len, token, token_score, token_type⟩ :: rest, s5)

/-- The part of `TokenizerModel.read_model` after the initial `read_alignment`:
marker and size checks (the declared size again compared to the instance's own
`calculate_size()`), the five metadata int32 (four of them via one
`struct.unpack("4i", read(16))`), the token loop. No trailing padding is read. -/
def tokReadBody (t : TokState) (s0 : ByteSrc) : Except AltError (TokMeta × ByteSrc) :=
  match read_section_marker s0 with
  | .error e => .error e
  | .ok ((marker, size), s1) =>
    if !MagicType.is_tokenizer marker then .error .wrongSection
    else if size ≠ (tokCalculateSize t : Int) then .error .sizeMismatch
    else
      match readInt32 s1 with
      | .error e => .error e
      | .ok (vocab_size, s2) =>
        let ri := srcRead s2 16
        match unpack_4i ri.1 with
        | .error e => .error e
        | .ok (bos_id, eos_id, pad_id, unk_id) =>
          match tokReadLoop vocab_size.toNat ri.2 with
          | .error e => .error e
          | .ok (vocab, s3) =>
            .ok (⟨vocab_size, bos_id, eos_id, pad_id, unk_id, vocab⟩, s3)

/-- `TokenizerModel.read_model`: `read_alignment` first, then the rest of the
method (`tokReadBody`). -/
def tokReadModel (t : TokState) (s : ByteSrc) : Except AltError (TokMeta × ByteSrc) :=
  match read_alignment s with
  | .error e => .error e
  | .ok s0 => tokReadBody t s0

/-! ## Scalar Q8 quantization (`examples/q8.py`), over exact rationals -/

/-- Python's `round` (banker's rounding: ties to the even integer). -/
def pyRound (x : ℚ) : ℤ :=
  let f := ⌊x⌋
  let frac := x - f
  if frac < 1 / 2 then f
  else if 1 / 2 < frac then f + 1
  else if f % 2 = 0 then f else f + 1

/-- The `Q8` dataclass of `examples/q8.py` (field defaults as in the source). -/
structure Q8 where
  scalar : ℚ := 0
  alpha : ℚ := 0
  bits : ℤ := 0
  residual : ℚ := 0
  deriving DecidableEq, Repr

/-- `quantize_scalar_q8`. -/
def quantize_scalar_q8 (value : ℚ) : Q8 :=
  let z_domain : ℚ := 255
  let r_max := |value|
  let r_min := -r_max
  let r_domain := r_max - r_min
  if r_domain = 0 then { scalar := 1, alpha := 1, bits := 0 }
  else
    let alpha : ℚ := if r_domain > z_domain then z_domain / r_domain else 1
    let base_step_size := r_domain / z_domain
    let bits := pyRound (value / base_step_size)
    { scalar := base_step_size * alpha
      alpha := alpha
      bits := bits
      residual := value - bits * base_step_size }

/-- `dequantize_scalar_q8`. -/
def dequantize_scalar_q8 (q : Q8) : ℚ := q.bits * (q.scalar / q.alpha) + q.residual

/-! ## Concrete instances used by the closed theorems below -/

deriving instance DecidableEq for Except

/-- The default `ParametersModel` state (`config.get` defaults in `__init__`):
`hidden_act = "silu"`, the documented integer defaults, `head_size = 4096 // 32`,
and the IEEE-754 bit patterns of `1e-5`, `10000.0` and `0.02` as float32. -/
def pDefault : ParamsState :=
  { hidden_act := [115, 105, 108, 117]
    tie_word_embeddings := false
    hidden_size := 4096
    intermediate_size := 16384
    max_position_embeddings := 32768
    num_attention_heads := 32
    num_hidden_layers := 32
    num_key_value_heads := 32
    sliding_window := 4096
    head_size := 128
    rms_norm_eps := 0x3727C5AC
    rope_theta := 0x461C4000
    initializer_range := 0x3CA3D70A }

/-- A Parameters state with `hidden_size = 128`, `num_attention_heads = 4` and the
consistent stored `head_size = 32`. -/
def pHead32 : ParamsState :=
  { pDefault with hidden_size := 128, num_attention_heads := 4, head_size := 32 }

/-- Same as `pHead32` but with the inconsistent stored `head_size = 31`. -/
def pHead31 : ParamsState := { pHead32 with head_size := 31 }

/-- A `GeneralModel` state whose seven string fields are each the one-character
non-ASCII string `"é"` (U+00E9, two UTF-8 bytes). -/
def gEacute : GeneralState :=
  { model_type := [0xE9], base_model := [0xE9], author := [0xE9], created_at := [0xE9]
    last_modified := [0xE9], license := [0xE9], uuid := [0xE9] }

/-- A `GeneralModel` state whose seven string fields are each `"ab"`
(`calculate_size() = 42`). -/
def gAB : GeneralState :=
  { model_type := [97, 98], base_model := [97, 98], author := [97, 98]
    created_at := [97, 98], last_modified := [97, 98], license := [97, 98]
    uuid := [97, 98] }

/-- A General section body whose seven fields are each `"abc"`: it consumes
`7 * (4 + 3) = 49` bytes. -/
def bodyAbc : List Nat :=
  (pack_i 3 ++ [97, 98, 99]) ++ (pack_i 3 ++ [97, 98, 99]) ++ (pack_i 3 ++ [97, 98, 99]) ++
  (pack_i 3 ++ [97, 98, 99]) ++ (pack_i 3 ++ [97, 98, 99]) ++ (pack_i 3 ++ [97, 98, 99]) ++
  (pack_i 3 ++ [97, 98, 99])

/-- A General section file declaring `body_size = 42` over a body that consumes 49
bytes, padded with zeros to the 32-byte boundary (position 65 → 31 padding bytes). -/
def fileAbc42 : List Nat :=
  pack_q MagicType.GENERAL ++ pack_q 42 ++ bodyAbc ++ List.replicate 31 0

/-- A one-token tokenizer state (`"hi"`, score bits of `0.5f`, no special flags). -/
def tokOneEntry : TokState :=
  { vocab := [⟨[104, 105], 0x3F000000, ⟨false, false, false, false⟩⟩]
    bos_id := 1, eos_id := 2, pad_id := -1, unk_id := 0 }

/-- An empty-vocabulary tokenizer state (`calculate_size() = 20`). -/
def tokEmpty : TokState := { vocab := [], bos_id := 1, eos_id := 2, pad_id := -1, unk_id := 0 }

/-- A `GeneralModel` state whose seven string fields are all empty
(`calculate_size() = 28`). -/
def gEmpty : GeneralState :=
  { model_type := [], base_model := [], author := [], created_at := []
    last_modified := [], license := [], uuid := [] }

/-! ## Helper evaluation lemmas -/

/-- Evaluating `read_section_marker` on a stream that begins with a packed marker
and size. -/
theorem read_section_marker_eval (marker size : Int) (rest : List Nat)
    (hm1 : -(2 ^ 63) ≤ marker) (hm2 : marker < 2 ^ 63)
    (hs1 : -(2 ^ 63) ≤ size) (hs2 : size < 2 ^ 63) :
    read_section_marker ⟨pack_q marker ++ (pack_q size ++ rest), 0⟩ =
      (if MagicType.is_valid marker
       then .ok ((marker, size), ⟨pack_q marker ++ (pack_q size ++ rest), 16⟩)
       else .error .unknownMarker) := by
  have h1 : srcRead ⟨pack_q marker ++ (pack_q size ++ rest), 0⟩ 8 =
      (pack_q marker, ⟨pack_q marker ++ (pack_q size ++ rest), 8⟩) := by
    have h := srcRead_append [] (pack_q marker) (pack_q size ++ rest) 8
      (pack_q_length marker).symm
    simpa [pack_q_length] using h
  have h2 : srcRead ⟨pack_q marker ++ (pack_q size ++ rest), 8⟩ 8 =
      (pack_q size, ⟨pack_q marker ++ (pack_q size ++ rest), 16⟩) := by
    have h := srcRead_append (pack_q marker) (pack_q size) rest 8 (pack_q_length size).symm
    rw [pack_q_length marker, pack_q_length size] at h
    exact h
  rw [read_section_marker]
  rw [h1]
  simp only [unpack_q_pack_q marker hm1 hm2]
  by_cases hv : MagicType.is_valid marker
  · simp only [hv, Bool.not_true, Bool.false_eq_true, if_false, if_true]
    rw [h2]
    simp only [unpack_q_pack_q size hs1 hs2]
  · simp only [hv, Bool.not_false, if_true, Bool.false_eq_true, if_false]


/-- `write_alignment` always appends exactly `calculate_padding` zero bytes (the
`if` in the source only skips an empty write). -/
theorem write_alignment_eq (w : List Nat) :
    write_alignment w = w ++ List.replicate (calculate_padding w.length) 0 := by
  rw [write_alignment]
  split
  · rfl
  · next h =>
    have h0 : calculate_padding w.length = 0 := by omega
    simp [h0]

theorem pack_bool_length (b : Bool) : (pack_bool b).length = 1 := by
  cases b <;> rfl

theorem pack_f_length (bits : Nat) : (pack_f bits).length = 4 := leBytes_length 4 _

/-- Evaluating `readPrefixedStr` on a stream positioned at a well-formed ASCII
length-prefixed string. -/
theorem readPrefixedStr_ascii (pre str suf : List Nat)
    (hascii : ∀ c ∈ str, c < 0x80) (hlen : str.length < 2 ^ 31) :
    readPrefixedStr ⟨pre ++ (pack_i (str.length : Int) ++ (str ++ suf)), pre.length⟩ =
      .ok (str, ⟨pre ++ (pack_i (str.length : Int) ++ (str ++ suf)),
        pre.length + 4 + str.length⟩) := by
  have h1 : srcRead ⟨pre ++ (pack_i (str.length : Int) ++ (str ++ suf)), pre.length⟩ 4 =
      (pack_i (str.length : Int),
        ⟨pre ++ (pack_i (str.length : Int) ++ (str ++ suf)), pre.length + 4⟩) := by
    have h := srcRead_append pre (pack_i (str.length : Int)) (str ++ suf) 4
      (pack_i_length _).symm
    rw [pack_i_length] at h
    exact h
  have hcast1 : -(2 ^ 31 : Int) ≤ (str.length : Int) :=
    le_trans (by norm_num) (Int.natCast_nonneg _)
  have hcast2 : (str.length : Int) < 2 ^ 31 := by exact_mod_cast hlen
  have htn : ((str.length : Int)).toNat = str.length := Int.toNat_natCast str.length
  have h2 : srcRead ⟨pre ++ (pack_i (str.length : Int) ++ (str ++ suf)), pre.length + 4⟩
      str.length =
      (str, ⟨pre ++ (pack_i (str.length : Int) ++ (str ++ suf)),
        pre.length + 4 + str.length⟩) := by
    have h := srcRead_append (pre ++ pack_i (str.length : Int)) str suf str.length rfl
    rw [List.append_assoc] at h
    rw [List.length_append, pack_i_length] at h
    exact h
  rw [readPrefixedStr]
  rw [h1]
  simp only [unpack_i_pack_i _ hcast1 hcast2, htn, h2, utf8Decode_ascii str hascii]

/-- With at least 4 bytes left in the stream, `paramsReadFromBool` always raises
`struct.error`: the 4 bytes read for the bool never fit the 1-byte format. -/
theorem paramsReadFromBool_structError (hidden_act : List Nat) (s : ByteSrc)
    (h : s.pos + 4 ≤ s.data.length) :
    paramsReadFromBool hidden_act s = .error .structError := by
  have hfst : ((srcRead s 4).1).length = 4 := by
    simp only [srcRead, List.length_take, List.length_drop]
    omega
  have hb : unpack_bool ((srcRead s 4).1) = .error .structError := by
    rw [unpack_bool, if_neg (by omega)]
  rw [paramsReadFromBool]
  simp only [hb]

/-! ## Claim theorems -/

/-- **C6.** For every non-negative offset, `calculate_padding` equals
`(32 − (offset mod 32)) mod 32` and lies in `[0, 32)`; and `write_alignment`
appends exactly that many zero bytes, after which the file position (the number of
bytes written) is a multiple of 32. -/
theorem calculate_padding_write_alignment_correct :
    (∀ offset : Nat,
      calculate_padding offset = (32 - offset % 32) % 32 ∧ calculate_padding offset < 32) ∧
    (∀ w : List Nat,
      write_alignment w = w ++ List.replicate (calculate_padding w.length) 0 ∧
      (write_alignment w).length % 32 = 0) := by
  constructor
  · intro offset
    refine ⟨rfl, ?_⟩
    exact Nat.mod_lt _ (by decide)
  · intro w
    have hpad : calculate_padding w.length = (32 - w.length % 32) % 32 := rfl
    constructor
    · rw [write_alignment]
      split
      · rfl
      · next h =>
        have h0 : calculate_padding w.length = 0 := by omega
        simp [h0]
    · rw [write_alignment]
      split
      · next h =>
        simp only [List.length_append, List.length_replicate]
        omega
      · next h =>
        have h0 : calculate_padding w.length = 0 := by omega
        rw [hpad] at h0
        omega

/-- **C7.** When the padding bytes are present in the file, `read_alignment`
consumes exactly `calculate_padding` bytes, succeeds (advancing the cursor to the
32-byte boundary) iff every consumed padding byte is zero, and raises the
padding-corruption `ValueError` as soon as any consumed padding byte is non-zero. -/
theorem read_alignment_exact_and_zero_only :
    ∀ s : ByteSrc, s.pos + calculate_padding s.pos ≤ s.data.length →
      (read_alignment s = .ok ⟨s.data, s.pos + calculate_padding s.pos⟩ ↔
        ∀ b ∈ (s.data.drop s.pos).take (calculate_padding s.pos), b = 0) ∧
      ((¬ ∀ b ∈ (s.data.drop s.pos).take (calculate_padding s.pos), b = 0) →
        read_alignment s = .error .paddingCorrupt) := by
  intro s hle
  by_cases hp : calculate_padding s.pos = 0
  · constructor
    · rw [read_alignment]
      simp [hp]
    · intro hnz
      exact absurd (by simp [hp]) hnz
  · have hlen : ((s.data.drop s.pos).take (calculate_padding s.pos)).length =
        calculate_padding s.pos := by
      rw [List.length_take, List.length_drop]
      omega
    have hread : srcRead s (calculate_padding s.pos) =
        ((s.data.drop s.pos).take (calculate_padding s.pos),
          ⟨s.data, s.pos + calculate_padding s.pos⟩) := by
      rw [srcRead, hlen]
    by_cases hz : ∀ b ∈ (s.data.drop s.pos).take (calculate_padding s.pos), b = 0
    · have heq : (s.data.drop s.pos).take (calculate_padding s.pos) =
          List.replicate (calculate_padding s.pos) 0 := by
        rw [List.eq_replicate_iff]
        exact ⟨hlen, hz⟩
      constructor
      · rw [read_alignment]
        simp only [hread]
        rw [if_pos (by omega), if_pos heq]
        exact iff_of_true rfl hz
      · intro hnz
        exact absurd hz hnz
    · have hne : (s.data.drop s.pos).take (calculate_padding s.pos) ≠
          List.replicate (calculate_padding s.pos) 0 := by
        intro heq
        apply hz
        intro b hb
        rw [heq] at hb
        exact List.eq_of_mem_replicate hb
      constructor
      · rw [read_alignment]
        simp only [hread]
        rw [if_pos (by omega), if_neg hne]
        simp [hz]
      · intro _
        rw [read_alignment]
        simp only [hread]
        rw [if_pos (by omega), if_neg hne]

/-- Witness for C7: a stream of 32 zero bytes read from position 8 succeeds and
stops exactly at the boundary; flipping padding byte 20 to `0xFF` makes the same
read fail with the corruption error. -/
theorem read_alignment_exact_and_zero_only_witness :
    read_alignment ⟨List.replicate 32 0, 8⟩ = .ok ⟨List.replicate 32 0, 32⟩ ∧
    read_alignment ⟨List.replicate 20 0 ++ [255] ++ List.replicate 11 0, 8⟩ =
      .error .paddingCorrupt :=
  ⟨(read_alignment_exact_and_zero_only ⟨List.replicate 32 0, 8⟩ (by decide)).1.mpr
      (by decide),
   (read_alignment_exact_and_zero_only ⟨List.replicate 20 0 ++ [255] ++ List.replicate 11 0, 8⟩
      (by decide)).2 (by decide)⟩

/-- **C8.** The six registered marker constants are pairwise distinct, and
`read_section_marker` returns the `(marker, size)` pair for every registered
64-bit marker value and raises the unknown-marker `ValueError` for every 64-bit
marker value outside the registered set. -/
theorem markers_distinct_and_marker_read_classifies :
    List.Pairwise (fun a b => a ≠ b)
      [MagicType.ALT, MagicType.GENERAL, MagicType.PARAMETERS,
       MagicType.TOKENIZER, MagicType.TENSORS, MagicType.END] ∧
    ∀ (marker size : Int) (rest : List Nat),
      -(2 ^ 63) ≤ marker → marker < 2 ^ 63 → -(2 ^ 63) ≤ size → size < 2 ^ 63 →
      read_section_marker ⟨pack_q marker ++ (pack_q size ++ rest), 0⟩ =
        (if MagicType.is_valid marker
         then .ok ((marker, size), ⟨pack_q marker ++ (pack_q size ++ rest), 16⟩)
         else .error .unknownMarker) := by
  constructor
  · decide
  · intro marker size rest hm1 hm2 hs1 hs2
    exact read_section_marker_eval marker size rest hm1 hm2 hs1 hs2

/-- Witness for C8: the General marker is classified as valid and returned with its
size, while the unregistered value `12345` is rejected as an unknown marker. -/
theorem markers_distinct_and_marker_read_classifies_witness :
    read_section_marker ⟨pack_q 0xCAFEBABE ++ (pack_q 64 ++ []), 0⟩ =
      .ok ((0xCAFEBABE, 64), ⟨pack_q 0xCAFEBABE ++ (pack_q 64 ++ []), 16⟩) ∧
    read_section_marker ⟨pack_q 12345 ++ (pack_q 64 ++ []), 0⟩ = .error .unknownMarker :=
  ⟨(markers_distinct_and_marker_read_classifies.2 0xCAFEBABE 64 []
      (by norm_num) (by norm_num) (by norm_num) (by norm_num)).trans (by decide),
   (markers_distinct_and_marker_read_classifies.2 12345 64 []
      (by norm_num) (by norm_num) (by norm_num) (by norm_num)).trans (by decide)⟩

/-- Counterexample for C4: `fileAbc42` declares `body_size = 42` — the reader
instance's own `calculate_size()` — while its field sequence consumes 49 bytes;
`GeneralModel.read_model` accepts it and returns the seven `"abc"` fields, so the
size check does **not** reject files whose declared size differs from the bytes the
field sequence consumes. -/
theorem general_read_accepts_consumed_size_mismatch :
    generalCalculateSize gAB = 42 ∧ bodyAbc.length = 49 ∧
    generalReadModel gAB ⟨fileAbc42, 0⟩ =
      .ok ([[97, 98, 99], [97, 98, 99], [97, 98, 99], [97, 98, 99], [97, 98, 99],
            [97, 98, 99], [97, 98, 99]], ⟨fileAbc42, 96⟩) := by
  refine ⟨by decide, by decide, by decide⟩

/-- **C4 (amended).** The size check in `GeneralModel.read_model` and
`TokenizerModel.read_model` compares the declared `body_size` against the reader
instance's own `calculate_size()` (computed from its in-memory state) before any
field is decoded: whenever the declared size differs from the instance's size the
read fails with the size-mismatch `ValueError`, regardless of the body bytes. -/
theorem general_tokenizer_size_check_against_instance_size :
    (∀ (g : GeneralState) (d : Int) (rest : List Nat),
      -(2 ^ 63) ≤ d → d < 2 ^ 63 → d ≠ (generalCalculateSize g : Int) →
      generalReadModel g ⟨pack_q MagicType.GENERAL ++ (pack_q d ++ rest), 0⟩ =
        .error .sizeMismatch) ∧
    (∀ (t : TokState) (d : Int) (rest : List Nat),
      -(2 ^ 63) ≤ d → d < 2 ^ 63 → d ≠ (tokCalculateSize t : Int) →
      tokReadModel t ⟨pack_q MagicType.TOKENIZER ++ (pack_q d ++ rest), 0⟩ =
        .error .sizeMismatch) := by
  constructor
  · intro g d rest h1 h2 hne
    rw [generalReadModel]
    rw [read_section_marker_eval MagicType.GENERAL d rest (by norm_num [MagicType.GENERAL]) (by norm_num [MagicType.GENERAL]) h1 h2]
    rw [if_pos (by decide)]
    simp only [show MagicType.is_general MagicType.GENERAL = true from rfl,
      Bool.not_true, Bool.false_eq_true, if_false]
    rw [if_pos hne]
  · intro t d rest h1 h2 hne
    have halign : read_alignment ⟨pack_q MagicType.TOKENIZER ++ (pack_q d ++ rest), 0⟩ =
        .ok ⟨pack_q MagicType.TOKENIZER ++ (pack_q d ++ rest), 0⟩ := by
      rw [read_alignment]
      norm_num [calculate_padding, MagicType.ALIGNMENT]
    simp only [tokReadModel, halign]
    rw [tokReadBody]
    rw [read_section_marker_eval MagicType.TOKENIZER d rest (by norm_num [MagicType.TOKENIZER]) (by norm_num [MagicType.TOKENIZER]) h1 h2]
    rw [if_pos (by decide)]
    simp only [show MagicType.is_tokenizer MagicType.TOKENIZER = true from rfl,
      Bool.not_true, Bool.false_eq_true, if_false]
    rw [if_pos hne]

/-- Witness for C4 (amended): an all-empty General instance (`calculate_size() = 28`)
rejects a header declaring 7, and an empty-vocabulary tokenizer instance
(`calculate_size() = 20`) rejects a header declaring 7. -/
theorem general_tokenizer_size_check_witness :
    generalReadModel gEmpty ⟨pack_q MagicType.GENERAL ++ (pack_q 7 ++ []), 0⟩ =
      .error .sizeMismatch ∧
    tokReadModel tokEmpty ⟨pack_q MagicType.TOKENIZER ++ (pack_q 7 ++ []), 0⟩ =
      .error .sizeMismatch :=
  ⟨general_tokenizer_size_check_against_instance_size.1 gEmpty 7 []
      (by norm_num) (by norm_num) (by decide),
   general_tokenizer_size_check_against_instance_size.2 tokEmpty 7 []
      (by norm_num) (by norm_num) (by decide)⟩

/-- **C1.** The Parameters round-trip fails for every in-memory state (every
ASCII `hidden_act` of int32-representable length — the Python writer itself is
only well defined on those): reading back the exact bytes `write_model` produced
raises `struct.error`, because `read_model` hands the 4 bytes it reads for
`tie_word_embeddings` to the 1-byte format `struct.unpack("?", ...)`. No
Parameters round-trip can return the written values. -/
theorem params_write_then_read_raises_struct_error :
    ∀ p : ParamsState, (∀ c ∈ p.hidden_act, c < 0x80) → p.hidden_act.length < 2 ^ 31 →
      paramsReadModel p ⟨paramsWriteModel p [], 0⟩ = .error .structError := by
  intro p hascii hlen
  obtain ⟨R, hW, hR⟩ : ∃ R : List Nat,
      paramsWriteModel p [] =
        pack_q MagicType.PARAMETERS ++ (pack_q (paramsCalculateSize p : Int) ++
          (pack_i (p.hidden_act.length : Int) ++ (p.hidden_act ++ R))) ∧ 4 ≤ R.length := by
    refine ⟨pack_bool p.tie_word_embeddings ++ pack_i p.hidden_size ++
        pack_i p.intermediate_size ++ pack_i p.max_position_embeddings ++
        pack_i p.num_attention_heads ++ pack_i p.num_hidden_layers ++
        pack_i p.num_key_value_heads ++ pack_i p.sliding_window ++ pack_i p.head_size ++
        pack_f p.rms_norm_eps ++ pack_f p.rope_theta ++ pack_f p.initializer_range ++
        List.replicate (calculate_padding
          (([] : List Nat) ++ pack_q MagicType.PARAMETERS ++
            pack_q (paramsCalculateSize p : Int) ++
            (pack_i (p.hidden_act.length : Int) ++ p.hidden_act) ++
            pack_bool p.tie_word_embeddings ++ pack_i p.hidden_size ++
            pack_i p.intermediate_size ++ pack_i p.max_position_embeddings ++
            pack_i p.num_attention_heads ++ pack_i p.num_hidden_layers ++
            pack_i p.num_key_value_heads ++ pack_i p.sliding_window ++
            pack_i p.head_size ++ pack_f p.rms_norm_eps ++ pack_f p.rope_theta ++
            pack_f p.initializer_range).length) 0, ?_, ?_⟩
    · rw [paramsWriteModel, write_alignment_eq, write_section_marker,
        utf8Encode_ascii _ hascii]
      simp only [List.append_assoc, List.nil_append]
    · simp only [List.length_append, pack_i_length, pack_bool_length, pack_f_length]
      omega
  rw [hW]
  have hS2 : (paramsCalculateSize p : Int) < 2 ^ 63 := by
    have hsz : paramsCalculateSize p = 4 + p.hidden_act.length + 1 + 4 * 7 + 4 * 3 + 4 :=
      rfl
    have hb : (2 : Int) ^ 63 = 9223372036854775808 := by norm_num
    have hb31 : p.hidden_act.length < 2147483648 := by
      have : (2 : Nat) ^ 31 = 2147483648 := by norm_num
      omega
    rw [hsz, hb]
    push_cast
    omega
  rw [paramsReadModel]
  rw [read_section_marker_eval MagicType.PARAMETERS (paramsCalculateSize p : Int)
    (pack_i (p.hidden_act.length : Int) ++ (p.hidden_act ++ R))
    (by norm_num [MagicType.PARAMETERS]) (by norm_num [MagicType.PARAMETERS])
    (le_trans (by norm_num) (Int.natCast_nonneg _)) hS2]
  rw [if_pos (by decide)]
  simp only [show MagicType.is_parameters MagicType.PARAMETERS = true from rfl,
    Bool.not_true, Bool.false_eq_true, if_false]
  rw [if_neg (by simp)]
  have hstr := readPrefixedStr_ascii
    (pack_q MagicType.PARAMETERS ++ pack_q (paramsCalculateSize p : Int))
    p.hidden_act R hascii hlen
  rw [List.append_assoc] at hstr
  rw [List.length_append, pack_q_length, pack_q_length] at hstr
  norm_num at hstr
  rw [hstr]
  simp only []
  apply paramsReadFromBool_structError
  simp only [List.length_append, pack_q_length, pack_i_length]
  omega

/-- Witness for C1: the default `ParametersModel` state satisfies the ASCII and
length bounds, and its round-trip indeed fails with `struct.error`. -/
theorem params_write_then_read_struct_error_witness :
    (∀ c ∈ pDefault.hidden_act, c < 0x80) ∧
    paramsReadModel pDefault ⟨paramsWriteModel pDefault [], 0⟩ = .error .structError :=
  ⟨by decide, params_write_then_read_raises_struct_error pDefault (by decide) (by decide)⟩

/-- **C2.** For the General state whose seven fields are each the non-ASCII
one-character string `"é"`, `calculate_size()` returns 35 (seven 4-byte prefixes
plus seven *character* counts) while `write_model` emits 42 body bytes between the
16-byte header and the padding (seven 4-byte prefixes plus seven 2-byte UTF-8
encodings): the declared size and the emitted body differ. -/
theorem general_calculate_size_undercounts_utf8_body :
    generalCalculateSize gEacute = 35 ∧ (generalWriteBody gEacute).length = 42 ∧
    generalWriteModel gEacute [] =
      write_section_marker [] MagicType.GENERAL 35 ++ generalWriteBody gEacute ++
        List.replicate 6 0 := by
  refine ⟨by decide, by decide, by decide⟩

/-- Counterexample for C3: the file written from `pHead32` stores
`hidden_size = 128`, `num_attention_heads = 4` and the *consistent*
`head_size = 32`, which the claim says is accepted — but `read_model` raises
`struct.error` at the `tie_word_embeddings` field, so the file is not accepted
(and a fortiori no `DerivedFieldMismatch` check is ever reached). -/
theorem params_consistent_head_size_file_not_accepted :
    paramsReadModel pHead32 ⟨paramsWriteModel pHead32 [], 0⟩ = .error .structError := by
  decide

/-- **C3 (amended).** `ParametersModel.read_model` performs no `head_size`
recomputation and has no derived-field error path: the files storing
`head_size = 31` and `head_size = 32` (hidden_size 128, 4 heads) are read with
identical results — both fail with `struct.error` at the `tie_word_embeddings`
field, before the integer fields are reached. -/
theorem params_head_size_31_and_32_read_identically :
    paramsReadModel pHead32 ⟨paramsWriteModel pHead31 [], 0⟩ = .error .structError ∧
    paramsReadModel pHead32 ⟨paramsWriteModel pHead32 [], 0⟩ =
      paramsReadModel pHead32 ⟨paramsWriteModel pHead31 [], 0⟩ := by
  refine ⟨by decide, by decide⟩

/-- **C5.** `TokenType.get_token_type` in `alt/convert/spm.py` implements exactly
the first-match-wins precedence byte → control → unknown → unused → `"<s>"` →
`"</s>"` → `"<pad>"` → NORMAL; in particular a token whose processor reports both
the byte and the control flag is classified BYTE and never CONTROL. -/
theorem spm_get_token_type_precedence :
    ∀ (p : SpmTokenFlags) (token : List Nat),
      (p.is_byte = true → spmGetTokenType p token = SpmTokenType.BYTE) ∧
      (p.is_byte = false → p.is_control = true →
        spmGetTokenType p token = SpmTokenType.CONTROL) ∧
      (p.is_byte = false → p.is_control = false → p.is_unknown = true →
        spmGetTokenType p token = SpmTokenType.UNKNOWN) ∧
      (p.is_byte = false → p.is_control = false → p.is_unknown = false →
        p.is_unused = true → spmGetTokenType p token = SpmTokenType.UNUSED) ∧
      (p = ⟨false, false, false, false⟩ → token = strBOS →
        spmGetTokenType p token = SpmTokenType.BOS) ∧
      (p = ⟨false, false, false, false⟩ → token ≠ strBOS → token = strEOS →
        spmGetTokenType p token = SpmTokenType.EOS) ∧
      (p = ⟨false, false, false, false⟩ → token ≠ strBOS → token ≠ strEOS →
        token = strPAD → spmGetTokenType p token = SpmTokenType.PAD) ∧
      (p = ⟨false, false, false, false⟩ → token ≠ strBOS → token ≠ strEOS →
        token ≠ strPAD → spmGetTokenType p token = SpmTokenType.NORMAL) ∧
      (p.is_byte = true → p.is_control = true →
        spmGetTokenType p token ≠ SpmTokenType.CONTROL) := by
  intro p token
  refine ⟨?_, ?_, ?_, ?_, ?_, ?_, ?_, ?_, ?_⟩
  · intro h
    simp [spmGetTokenType, h]
  · intro h1 h2
    simp [spmGetTokenType, h1, h2]
  · intro h1 h2 h3
    simp [spmGetTokenType, h1, h2, h3]
  · intro h1 h2 h3 h4
    simp [spmGetTokenType, h1, h2, h3, h4]
  · intro hp ht
    subst hp
    simp [spmGetTokenType, ht]
  · intro hp h1 h2
    subst hp
    simp [spmGetTokenType, h1, h2]
    decide
  · intro hp h1 h2 h3
    subst hp
    simp [spmGetTokenType, h1, h2, h3]
    decide
  · intro hp h1 h2 h3
    subst hp
    simp [spmGetTokenType, h1, h2, h3]
  · intro h1 h2
    simp [spmGetTokenType, h1]
    decide

/-- Witness for C5: a synthetic token with both the byte and control flags set is
classified BYTE (value 1), not CONTROL (value 2). -/
theorem spm_get_token_type_precedence_witness :
    spmGetTokenType ⟨true, true, false, false⟩ [97] = SpmTokenType.BYTE ∧
    spmGetTokenType ⟨true, true, false, false⟩ [97] ≠ SpmTokenType.CONTROL :=
  ⟨(spm_get_token_type_precedence ⟨true, true, false, false⟩ [97]).1 rfl,
   (spm_get_token_type_precedence ⟨true, true, false, false⟩ [97]).2.2.2.2.2.2.2.2 rfl rfl⟩

/-- **C9.** Over exact rational arithmetic, `dequantize_scalar_q8` inverts
`quantize_scalar_q8` for every input, including zero:
`bits * (scalar / alpha) + residual = value`, because `scalar = base_step * alpha`
and `residual = value - bits * base_step`. -/
theorem dequantize_inverts_quantize_scalar_q8 :
    ∀ value : ℚ, dequantize_scalar_q8 (quantize_scalar_q8 value) = value := by
  intro v
  by_cases h : |v| - -|v| = 0
  · have hv : v = 0 := by
      have h2 : |v| = 0 := by linarith
      exact abs_eq_zero.mp h2
    subst hv
    simp [quantize_scalar_q8, dequantize_scalar_q8]
  · simp only [quantize_scalar_q8, dequantize_scalar_q8, if_neg h]
    have hα : (if |v| - -|v| > 255 then (255 : ℚ) / (|v| - -|v|) else 1) ≠ 0 := by
      split
      · exact div_ne_zero (by norm_num) h
      · norm_num
    rw [mul_div_assoc, div_self hα, mul_one]
    ring

/-- Every branch of `TokenType.get_type` (`alt/base.py`) looks up an attribute the
class never defines. -/
theorem baseGetType_attr_err (p : SpmTokenFlags) (token : List Nat) :
    ∃ a, baseGetType p token = .error (.attributeError a) := by
  rw [baseGetType]
  repeat' split
  all_goals exact ⟨_, rfl⟩

/-- **C10.** `TokenType.get_type` in `alt/base.py` raises `AttributeError` on
every call, whatever the processor flags and token text, because the class defines
none of the constants its return statements name; consequently
`TokenizerModel.write_model`, which invokes it for each vocabulary token, fails
with that `AttributeError` for every non-empty vocabulary. -/
theorem base_get_type_attribute_error_blocks_tokenizer_write :
    (∀ (p : SpmTokenFlags) (token : List Nat),
      ∃ a, baseGetType p token = .error (.attributeError a)) ∧
    (∀ (t : TokState) (w : List Nat), t.vocab ≠ [] →
      ∃ a, tokWriteModel t w = .error (.attributeError a)) := by
  constructor
  · exact baseGetType_attr_err
  · intro t w hne
    obtain ⟨e, rest, hv⟩ : ∃ e rest, t.vocab = e :: rest := by
      cases hveq : t.vocab with
      | nil => exact absurd hveq hne
      | cons e rest => exact ⟨e, rest, rfl⟩
    obtain ⟨a, ha⟩ := baseGetType_attr_err e.flags e.piece
    refine ⟨a, ?_⟩
    rw [tokWriteModel, hv]
    simp only [tokWriteTokens, ha]

/-- Witness for C10: the one-token vocabulary state has a non-empty vocabulary and
its `write_model` fails with an `AttributeError`. -/
theorem base_get_type_blocks_tokenizer_write_witness :
    tokOneEntry.vocab ≠ [] ∧
    ∃ a, tokWriteModel tokOneEntry [] = .error (.attributeError a) :=
  ⟨by decide,
   base_get_type_attribute_error_blocks_tokenizer_write.2 tokOneEntry [] (by decide)⟩
